import Mathlib

/-!
# GitLab provider: resource reconciliation handlers

A shallow embedding of the resource handlers of the GitLab Terraform provider
(`gitlab_topic`, `gitlab_project_membership`, the Jira integration) together
with the facts proved about them.

Conventions of the embedding.

* A Go `string` is a Lean `String`; every character the handlers inspect
  (`':'`, `'+'`, `'-'`, the decimal digits) is ASCII, so working on characters
  or on bytes splits and parses alike.
* A Go `int` is a Lean `Int`; the platform is taken to be 64 bit
  (`strconv.IntSize = 64`), and the range of `int` is checked explicitly where
  `strconv.Atoi` does.
* A Go `error` is a value of `Err`; the `nil` error is `none : Option Err`.
* `diag.Diagnostics` is `Option Diag`: `nil` is `none`, and the handlers only
  ever build a single diagnostic.
* A handler is a pure function of the resource data and of a `Client`, a table
  of the answers of the remote API and of the local file system. What a handler
  asks of its collaborators is recorded, in order, as a list of `Call`s.
-/

namespace GitlabProvider

/-! ## Errors and diagnostics -/

/-- Go error values met by the handlers. -/
inductive Err where
  /-- `strconv.ErrSyntax`, wrapped in a `*NumError` for the given input. -/
  | atoiSyntax (input : String)
  /-- `strconv.ErrRange`, wrapped in a `*NumError` for the given input. -/
  | atoiRange (input : String)
  /-- The error of `parseTwoPartID`: the identifier has not two parts. -/
  | unexpectedIDFormat (id : String)
  /-- "title is a required attribute for GitLab 15.0 and newer. ..." -/
  | titleRequired
  /-- "title is not supported by your version of GitLab. ..." -/
  | titleNotSupported
  /-- "Unable to open avatar file %s: %s" -/
  | unableToOpenAvatar (path : String) (cause : String)
  /-- An error handed back by the API client; `status` is the HTTP status of
  the `*gitlab.ErrorResponse`, when the error is one. -/
  | remote (status : Option Nat) (message : String)
  deriving DecidableEq

/-- One `diag.Diagnostic` of severity error. -/
inductive Diag where
  /-- `diag.FromErr(err)` -/
  | fromErr (err : Err)
  /-- "Failed to convert topic id %s to int: %s" -/
  | failedToConvertTopicId (id : String) (err : Err)
  /-- "Failed to create topic %q: %s" -/
  | failedToCreateTopic (name : String) (err : Err)
  /-- "Failed to read topic %d: %s" -/
  | failedToReadTopic (topicID : Int) (err : Err)
  /-- "Failed to update topic %d: %s" -/
  | failedToUpdateTopic (topicID : Int) (err : Err)
  /-- "Failed to delete topic %d: %s" -/
  | failedToDeleteTopic (topicID : Int) (err : Err)
  /-- "GitLab 14.9 introduced the proper deletion of topics. Set
  soft_destroy = true to empty out a topic instead of deleting it." -/
  | topicDeletionNotSupported
  /-- "couldn't create Gitlab Jira service: %v" -/
  | couldntCreateJiraService (err : Err)
  deriving DecidableEq

/-- The value of `diag.Diagnostics`: `none` is the nil slice. -/
abbrev Diagnostics := Option Diag

/-! ## `strconv.Atoi` and `strconv.Itoa` (Go standard library, 64 bit) -/

/-- The largest `int`. -/
def maxInt : Int := 2 ^ 63 - 1

/-- The smallest `int`. -/
def minInt : Int := -(2 ^ 63)

/-- The largest `uint64`, the `maxVal` of `strconv.ParseUint(s, 10, 64)`. -/
def maxUint64 : Nat := 2 ^ 64 - 1

/-- The `cutoff` of `strconv.ParseUint` in base 10: the smallest `n` such that
`n * 10` overflows. -/
def cutoff : Nat := maxUint64 / 10 + 1

/-- The value `ch - '0'` of a decimal digit. -/
def digitVal (c : Char) : Nat := c.toNat - 48

/-- Outcome of the digit loop of `strconv.ParseUint`. -/
inductive UintResult where
  | ok (n : Nat)
  | syntaxError
  | rangeError
  deriving DecidableEq

/-- The digit loop of `strconv.ParseUint(s, 10, 64)`: characters are consumed
from the left; a character that is no decimal digit is a syntax error, and an
overflow of `uint64` is a range error, reported as soon as it is met. -/
def parseUintLoop : List Char → Nat → UintResult
  | [], n => UintResult.ok n
  | c :: cs, n =>
    if !c.isDigit then UintResult.syntaxError
    else if n ≥ cutoff then UintResult.rangeError
    else
      let n1 := n * 10 + digitVal c
      if n1 > maxUint64 then UintResult.rangeError
      else parseUintLoop cs n1

/-- `strconv.ParseUint(s, 10, 64)`, with the empty string a syntax error. -/
def parseUint (s : List Char) : UintResult :=
  match s with
  | [] => UintResult.syntaxError
  | _ => parseUintLoop s 0

/-- `strconv.ParseInt(s, 10, 0)` on the characters of `s0`: an optional sign,
then `ParseUint`; a magnitude outside `int64` is a range error and the value
returned with it is the nearest bound. -/
def parseInt (s0 : String) : Int × Option Err :=
  match s0.data with
  | [] => (0, some (Err.atoiSyntax s0))
  | c :: cs =>
    let neg := c = '-'
    let s := if c = '+' ∨ c = '-' then cs else c :: cs
    match parseUint s with
    | UintResult.syntaxError => (0, some (Err.atoiSyntax s0))
    | UintResult.rangeError =>
      if neg then (minInt, some (Err.atoiRange s0)) else (maxInt, some (Err.atoiRange s0))
    | UintResult.ok un =>
      if ¬ neg ∧ un ≥ 2 ^ 63 then (maxInt, some (Err.atoiRange s0))
      else if neg ∧ un > 2 ^ 63 then (minInt, some (Err.atoiRange s0))
      else if neg then (-(un : Int), none) else ((un : Int), none)

/-- `strconv.Atoi(s)`: the value and the error. Its fast path for short inputs
computes what `ParseInt(s, 10, 0)` computes, so `Atoi` is `ParseInt` here. -/
def Atoi (s : String) : Int × Option Err := parseInt s

/-- `strconv.Itoa(i)`: the decimal digits of `i`, most significant first, after
a `'-'` when `i` is negative. -/
def Itoa (i : Int) : String :=
  if i < 0 then String.mk ('-' :: Nat.toDigits 10 i.natAbs)
  else String.mk (Nat.toDigits 10 i.natAbs)

/-- The value of a string of decimal digits read from the left, from `n`. -/
def digitsValue (l : List Char) (n : Nat) : Nat :=
  l.foldl (fun n c => n * 10 + digitVal c) n

/-! ## Identifier codec -/

/-- Modelled from the spec: `parseTwoPartID` is not among the sources. "decode
splits on the delimiter and fails with a MalformedIdentifier error if the
resulting part count differs from expectedParts" (two here); the delimiter is
`':'`, and on failure the Go function returns empty parts with the error. -/
def parseTwoPartID (id : String) : String × String × Option Err :=
  match id.data.splitOn ':' with
  | [a, b] => (String.mk a, String.mk b, none)
  | _ => ("", "", some (Err.unexpectedIDFormat id))

/-- Modelled from the spec: `buildTwoPartID` is not among the sources. "encode
joins parts with a reserved delimiter", `':'`, with no normalization. -/
def buildTwoPartID (a b : String) : String := a ++ ":" ++ b

/-- `projectIdAndUserIdFromId`: the split, then `strconv.Atoi` of the second
part whatever the split said; the error of the split takes precedence over the
one of `Atoi`. -/
def projectIdAndUserIdFromId (id : String) : String × Int × Option Err :=
  match parseTwoPartID id with
  | (projectId, userIdString, err) =>
    match Atoi userIdString with
    | (userId, e) =>
      let e := if err ≠ none then err else e
      (projectId, userId, e)

/-! ## The collaborators: remote API, version reporter, local files -/

/-- A `*gitlab.Response`, of which only the HTTP status is read. -/
structure Response where
  StatusCode : Nat
  deriving DecidableEq

/-- What an API method hands back: the entity (a pointer, possibly nil), the
response (possibly nil) and the error. -/
structure Answer (α : Type) where
  value : Option α
  resp : Option Response
  err : Option Err
  deriving DecidableEq

/-- A version of the remote system: major, minor, patch. -/
structure Version where
  major : Nat
  minor : Nat
  patch : Nat
  deriving DecidableEq

/-- The semantic ordering of versions: major, then minor, then patch. -/
def Version.le (a b : Version) : Bool :=
  a.major < b.major ∨ (a.major = b.major ∧
    (a.minor < b.minor ∨ (a.minor = b.minor ∧ a.patch ≤ b.patch)))

/-- An opened local file, the `io.Reader` of an avatar. -/
structure File where
  contents : String
  deriving DecidableEq

/-- The `gitlab.Topic` fields the handlers read. -/
structure Topic where
  ID : Int
  Name : String
  Title : String
  Description : String
  AvatarURL : String
  deriving DecidableEq

/-- The `avatar` struct of `avatar_helpers.go`; `Image` is a nil-able reader. -/
structure avatar where
  Filename : String
  Image : Option File
  deriving DecidableEq

/-- The `gitlab.TopicAvatar` of an outbound payload. -/
structure TopicAvatar where
  Filename : String
  Image : Option File
  deriving DecidableEq

/-- The `gitlab.CreateTopicOptions`: a nil pointer field is `none` and is left
out of the request. -/
structure CreateTopicOptions where
  Name : Option String
  Title : Option String
  Description : Option String
  Avatar : Option TopicAvatar
  deriving DecidableEq

/-- The `gitlab.UpdateTopicOptions`: a nil pointer field is `none` and is left
out of the request. -/
structure UpdateTopicOptions where
  Name : Option String
  Title : Option String
  Description : Option String
  Avatar : Option TopicAvatar
  deriving DecidableEq

/-- The `gitlab.ProjectMember` fields the handlers read. -/
structure ProjectMember where
  ID : Int
  AccessLevel : Int
  deriving DecidableEq

/-- The `gitlab.AddProjectMemberOptions` the handler fills. -/
structure AddProjectMemberOptions where
  UserID : Option Int
  AccessLevel : Option Int
  deriving DecidableEq

/-- The `gitlab.Project` field the handlers read. -/
structure Project where
  Name : String
  deriving DecidableEq

/-- The `gitlab.JiraServiceProperties` fields the handlers read. -/
structure JiraServiceProperties where
  URL : String
  Username : String
  ProjectKey : String
  JiraIssueTransitionID : String
  deriving DecidableEq

/-- The `gitlab.JiraService` fields the handlers read; the two times are
pointers, given here by their `String()` rendering, and `Properties` is a
pointer. -/
structure JiraService where
  Title : String
  CreatedAt : Option String
  UpdatedAt : Option String
  Active : Bool
  PushEvents : Bool
  IssuesEvents : Bool
  CommitEvents : Bool
  MergeRequestsEvents : Bool
  CommentOnEventEnabled : Bool
  TagPushEvents : Bool
  NoteEvents : Bool
  PipelineEvents : Bool
  JobEvents : Bool
  Properties : Option JiraServiceProperties
  deriving DecidableEq

/-- A request made to a collaborator. -/
inductive Call where
  | getVersion
  | openFile (path : String)
  | createTopic (options : CreateTopicOptions)
  | getTopic (topicID : Int)
  | updateTopic (topicID : Int) (options : UpdateTopicOptions)
  | deleteTopic (topicID : Int)
  | addProjectMember (projectId : String) (options : AddProjectMemberOptions)
  | getProjectMember (projectId : String) (userId : Int)
  | deleteProjectMember (projectId : String) (userId : Int)
  | getProject (project : String)
  | getJiraService (project : String)
  deriving DecidableEq

/-- The answers of the collaborators, one per request. `version` is what the
version reporter yields once its answer is parsed: the version, or the error of
the fetch or of the parse. `openFile` is `os.Open`, with the text of its error. -/
structure Client where
  version : Except Err Version
  openFile : String → Except String File
  createTopic : CreateTopicOptions → Answer Topic
  getTopic : Int → Answer Topic
  updateTopic : Int → UpdateTopicOptions → Answer Topic
  deleteTopic : Int → Answer Unit
  addProjectMember : String → AddProjectMemberOptions → Answer ProjectMember
  getProjectMember : String → Int → Answer ProjectMember
  deleteProjectMember : String → Int → Answer Unit
  getProject : String → Answer Project
  getJiraService : String → Answer JiraService

/-- How a handler ends: it returns the resource data and its diagnostics, or
the process panics (a nil pointer is dereferenced). Either way `calls` are the
requests made, in order. -/
inductive Outcome (σ : Type) where
  | panic (calls : List Call)
  | returned (d : σ) (diags : Diagnostics) (calls : List Call)
  deriving DecidableEq

/-- The requests made by a handler. -/
def Outcome.calls {σ : Type} : Outcome σ → List Call
  | Outcome.panic calls => calls
  | Outcome.returned _ _ calls => calls

/-- The outcome of a handler run after the requests `pre` were made. -/
def Outcome.after {σ : Type} (pre : List Call) : Outcome σ → Outcome σ
  | Outcome.panic calls => Outcome.panic (pre ++ calls)
  | Outcome.returned d diags calls => Outcome.returned d diags (pre ++ calls)

/-- Modelled from the spec: `is404` is not among the sources. "A not-found
response (remote 404-class signal)": the error is an API error response whose
status is 404. -/
def is404 (err : Err) : Bool :=
  match err with
  | Err.remote (some 404) _ => true
  | _ => false

/-- Modelled from the spec: `isGitLabVersionAtLeast` is not among the sources.
"Fetches the remote system's current version once per call, parses it as a
semantic version, and compares against minVersion using standard semantic
ordering"; an unreadable version is an error. -/
def isGitLabVersionAtLeast (c : Client) (minVersion : Version) :
    (Bool × Option Err) × List Call :=
  match c.version with
  | Except.error err => ((false, some err), [Call.getVersion])
  | Except.ok actual => ((minVersion.le actual, none), [Call.getVersion])

/-- Modelled from the spec: `isGitLabVersionLessThan` is not among the sources.
The negation of `isGitLabVersionAtLeast`, with the same error. -/
def isGitLabVersionLessThan (c : Client) (version : Version) :
    (Bool × Option Err) × List Call :=
  match isGitLabVersionAtLeast c version with
  | ((isAtLeast, err), calls) => ((!isAtLeast, err), calls)

/-! ## Resource data (`schema.ResourceData`) -/

/-- The attributes of a `gitlab_topic`, each by the value `d.Get` yields: an
attribute that is not set reads as the zero value of its type. -/
structure TopicAttrs where
  name : String
  title : String
  soft_destroy : Bool
  description : String
  avatar : String
  avatar_hash : String
  avatar_url : String
  deriving DecidableEq

/-- The `schema.ResourceData` of a `gitlab_topic`: the stored identity, the
attributes of the prior state (what `HasChange` compares with) and the
attributes `d.Get` reads, which `d.Set` writes. -/
structure TopicData where
  id : String
  state : TopicAttrs
  attrs : TopicAttrs
  deriving DecidableEq

/-- `d.SetId(id)` -/
def TopicData.SetId (d : TopicData) (id : String) : TopicData := { d with id := id }

/-- `d.GetOk(key)` of a string attribute: the value, and whether it is set to
a value other than the zero value. -/
def GetOk (v : String) : String × Bool := (v, v ≠ "")

/-- `d.HasChange(key)`: the prior and the current value differ. -/
def HasChange {α : Type} [DecidableEq α] (old new : α) : Bool := old ≠ new

/-- The attributes of a `gitlab_project_membership`. -/
structure MembershipAttrs where
  project_id : String
  user_id : Int
  access_level : String
  deriving DecidableEq

/-- The `schema.ResourceData` of a `gitlab_project_membership`. -/
structure MembershipData where
  id : String
  attrs : MembershipAttrs
  deriving DecidableEq

/-- `d.SetId(id)` -/
def MembershipData.SetId (d : MembershipData) (id : String) : MembershipData :=
  { d with id := id }

/-- The attributes of the Jira integration resource. -/
structure JiraAttrs where
  project : String
  title : String
  created_at : String
  updated_at : String
  active : Bool
  url : String
  project_key : String
  username : String
  password : String
  jira_issue_transition_id : String
  push_events : Bool
  issues_events : Bool
  commit_events : Bool
  merge_requests_events : Bool
  tag_push_events : Bool
  note_events : Bool
  pipeline_events : Bool
  job_events : Bool
  comment_on_event_enabled : Bool
  deriving DecidableEq

/-- The `schema.ResourceData` of the Jira integration resource. -/
structure JiraData where
  id : String
  attrs : JiraAttrs
  deriving DecidableEq

/-- `d.SetId(id)` -/
def JiraData.SetId (d : JiraData) (id : String) : JiraData := { d with id := id }

/-! ## `avatar_helpers.go` -/

/-- `readLocalAvatar`: opens the file at the path. -/
def readLocalAvatar (c : Client) (avatarPath : String) :
    (Option avatar × Option Err) × List Call :=
  match c.openFile avatarPath with
  | Except.error cause =>
    ((none, some (Err.unableToOpenAvatar avatarPath cause)), [Call.openFile avatarPath])
  | Except.ok avatarFile =>
    ((some { Filename := avatarPath, Image := some avatarFile }, none),
      [Call.openFile avatarPath])

/-- `createAvatar`: reads the avatar when a path is set. -/
def createAvatar (c : Client) (d : TopicData) : (Option avatar × Option Err) × List Call :=
  match GetOk d.attrs.avatar with
  | (v, true) => readLocalAvatar c v
  | (_, false) => ((none, none), [])

/-- `updateAvatar`: the avatar to send with an update, the error, and the
resource data, whose `avatar_hash` is emptied when the avatar is removed. -/
def updateAvatar (c : Client) (d : TopicData) :
    (Option avatar × Option Err) × TopicData × List Call :=
  if (HasChange d.state.avatar d.attrs.avatar ∨ HasChange d.state.avatar_hash d.attrs.avatar_hash)
      ∨ d.attrs.avatar_hash = "" then
    let avatarPath := d.attrs.avatar
    if avatarPath = "" then
      ((some { Filename := "", Image := none }, none),
        { d with attrs := { d.attrs with avatar_hash := "" } }, [])
    else
      match readLocalAvatar c avatarPath with
      | ((_, some err), calls) => ((none, some err), d, calls)
      | ((changedAvatar, none), calls) => ((changedAvatar, none), d, calls)
  else ((none, none), d, [])

/-! ## `resource_gitlab_topic.go` -/

/-- `resourceGitlabTopicEnsureTitleSupport`: the title gate on version 15.0. -/
def resourceGitlabTopicEnsureTitleSupport (c : Client) (d : TopicData) :
    Option Err × List Call :=
  match isGitLabVersionAtLeast c ⟨15, 0, 0⟩ with
  | ((_, some err), calls) => (some err, calls)
  | ((isTitleSupported, none), calls) =>
    match GetOk d.attrs.title with
    | (_, ok) =>
      if isTitleSupported ∧ ¬ ok then (some Err.titleRequired, calls)
      else if ¬ isTitleSupported ∧ ok then (some Err.titleNotSupported, calls)
      else (none, calls)

/-- `resourceGitlabTopicRead` -/
def resourceGitlabTopicRead (c : Client) (d : TopicData) : Outcome TopicData :=
  match Atoi d.id with
  | (_, some err) => Outcome.returned d (some (Diag.failedToConvertTopicId d.id err)) []
  | (topicID, none) =>
    let calls := [Call.getTopic topicID]
    match (c.getTopic topicID).err with
    | some err =>
      if is404 err then Outcome.returned (d.SetId "") none calls
      else Outcome.returned d (some (Diag.failedToReadTopic topicID err)) calls
    | none =>
      match (c.getTopic topicID).value with
      | none => Outcome.panic calls
      | some topic =>
        let d := d.SetId (Itoa topic.ID)
        let d := { d with attrs := { d.attrs with name := topic.Name } }
        let d := { d with attrs := { d.attrs with title := topic.Title } }
        let d := { d with attrs := { d.attrs with description := topic.Description } }
        let d := { d with attrs := { d.attrs with avatar_url := topic.AvatarURL } }
        Outcome.returned d none calls

/-- `resourceGitlabTopicCreate` -/
def resourceGitlabTopicCreate (c : Client) (d : TopicData) : Outcome TopicData :=
  match resourceGitlabTopicEnsureTitleSupport c d with
  | (some err, calls) => Outcome.returned d (some (Diag.fromErr err)) calls
  | (none, calls) =>
    let options : CreateTopicOptions :=
      { Name := some d.attrs.name, Title := none, Description := none, Avatar := none }
    let options :=
      match GetOk d.attrs.title with
      | (v, true) => { options with Title := some v }
      | (_, false) => options
    let options :=
      match GetOk d.attrs.description with
      | (v, true) => { options with Description := some v }
      | (_, false) => options
    match createAvatar c d with
    | ((_, some err), calls1) => Outcome.returned d (some (Diag.fromErr err)) (calls ++ calls1)
    | ((avatar, none), calls1) =>
      let options :=
        match avatar with
        | some avatar =>
          { options with Avatar := some { Filename := avatar.Filename, Image := avatar.Image } }
        | none => options
      let calls2 := calls ++ calls1 ++ [Call.createTopic options]
      match (c.createTopic options).err with
      | some err =>
        Outcome.returned d (some (Diag.failedToCreateTopic d.attrs.name err)) calls2
      | none =>
        match (c.createTopic options).value with
        | none => Outcome.panic calls2
        | some topic => (resourceGitlabTopicRead c (d.SetId (Itoa topic.ID))).after calls2

/-- `resourceGitlabTopicUpdate` -/
def resourceGitlabTopicUpdate (c : Client) (d : TopicData) : Outcome TopicData :=
  let options : UpdateTopicOptions :=
    { Name := none, Title := none, Description := none, Avatar := none }
  match resourceGitlabTopicEnsureTitleSupport c d with
  | (some err, calls) => Outcome.returned d (some (Diag.fromErr err)) calls
  | (none, calls) =>
    let options :=
      if HasChange d.state.name d.attrs.name then { options with Name := some d.attrs.name }
      else options
    let options :=
      if HasChange d.state.title d.attrs.title then { options with Title := some d.attrs.title }
      else options
    let options :=
      if HasChange d.state.description d.attrs.description then
        { options with Description := some d.attrs.description }
      else options
    match updateAvatar c d with
    | ((_, some err), d, calls1) => Outcome.returned d (some (Diag.fromErr err)) (calls ++ calls1)
    | ((avatar, none), d, calls1) =>
      let options :=
        match avatar with
        | some avatar =>
          { options with Avatar := some { Filename := avatar.Filename, Image := avatar.Image } }
        | none => options
      match Atoi d.id with
      | (_, some err) =>
        Outcome.returned d (some (Diag.failedToConvertTopicId d.id err)) (calls ++ calls1)
      | (topicID, none) =>
        let calls2 := calls ++ calls1 ++ [Call.updateTopic topicID options]
        match (c.updateTopic topicID options).err with
        | some err => Outcome.returned d (some (Diag.failedToUpdateTopic topicID err)) calls2
        | none => (resourceGitlabTopicRead c d).after calls2

/-- `resourceGitlabTopicDelete` -/
def resourceGitlabTopicDelete (c : Client) (d : TopicData) : Outcome TopicData :=
  match Atoi d.id with
  | (_, some err) => Outcome.returned d (some (Diag.failedToConvertTopicId d.id err)) []
  | (topicID, none) =>
    let softDestroy := d.attrs.soft_destroy
    match isGitLabVersionLessThan c ⟨14, 9, 0⟩ with
    | ((_, some err), calls) => Outcome.returned d (some (Diag.fromErr err)) calls
    | ((deleteNotSupported, none), calls) =>
      if !softDestroy && deleteNotSupported then
        Outcome.returned d (some Diag.topicDeletionNotSupported) calls
      else if softDestroy then
        let options : UpdateTopicOptions :=
          { Name := none, Title := none, Description := some "", Avatar := none }
        let calls1 := calls ++ [Call.updateTopic topicID options]
        match (c.updateTopic topicID options).err with
        | some err => Outcome.returned d (some (Diag.failedToUpdateTopic topicID err)) calls1
        | none => Outcome.returned d none calls1
      else
        let calls1 := calls ++ [Call.deleteTopic topicID]
        match (c.deleteTopic topicID).err with
        | some err => Outcome.returned d (some (Diag.failedToDeleteTopic topicID err)) calls1
        | none => Outcome.returned d none calls1

/-! ## `resource_gitlab_project_membership.go` -/

/-- The two access level tables, `accessLevelNameToValue` and
`accessLevelValueToName`, which are not among the sources: a Go map read, which
yields the zero value for a key that is absent. -/
structure AccessLevels where
  accessLevelNameToValue : String → Int
  accessLevelValueToName : Int → String

/-- `resourceGitlabProjectMembershipSetToState` -/
def resourceGitlabProjectMembershipSetToState (t : AccessLevels) (d : MembershipData)
    (projectMember : ProjectMember) (projectId : String) : MembershipData :=
  let d := { d with attrs := { d.attrs with project_id := projectId } }
  let d := { d with attrs := { d.attrs with user_id := projectMember.ID } }
  let d := { d with attrs :=
    { d.attrs with access_level := t.accessLevelValueToName projectMember.AccessLevel } }
  let userId := Itoa projectMember.ID
  d.SetId (buildTwoPartID projectId userId)

/-- Whether `resp != nil && resp.StatusCode == http.StatusNotFound`. -/
def respIsNotFound (resp : Option Response) : Bool :=
  match resp with
  | some resp => resp.StatusCode = 404
  | none => false

/-- `resourceGitlabProjectMembershipRead` -/
def resourceGitlabProjectMembershipRead (t : AccessLevels) (c : Client) (d : MembershipData) :
    Outcome MembershipData :=
  let id := d.id
  match projectIdAndUserIdFromId id with
  | (_, _, some err) => Outcome.returned d (some (Diag.fromErr err)) []
  | (projectId, userId, none) =>
    let calls := [Call.getProjectMember projectId userId]
    match (c.getProjectMember projectId userId).err with
    | some err =>
      if respIsNotFound (c.getProjectMember projectId userId).resp then
        Outcome.returned (d.SetId "") none calls
      else Outcome.returned d (some (Diag.fromErr err)) calls
    | none =>
      match (c.getProjectMember projectId userId).value with
      | none => Outcome.panic calls
      | some projectMember =>
        Outcome.returned (resourceGitlabProjectMembershipSetToState t d projectMember projectId)
          none calls

/-- `resourceGitlabProjectMembershipCreate` -/
def resourceGitlabProjectMembershipCreate (t : AccessLevels) (c : Client) (d : MembershipData) :
    Outcome MembershipData :=
  let userId := d.attrs.user_id
  let projectId := d.attrs.project_id
  let accessLevelId := t.accessLevelNameToValue d.attrs.access_level
  let options : AddProjectMemberOptions :=
    { UserID := some userId, AccessLevel := some accessLevelId }
  let calls := [Call.addProjectMember projectId options]
  match (c.addProjectMember projectId options).err with
  | some err => Outcome.returned d (some (Diag.fromErr err)) calls
  | none =>
    let userIdString := Itoa userId
    (resourceGitlabProjectMembershipRead t c
      (d.SetId (buildTwoPartID projectId userIdString))).after calls

/-- `resourceGitlabProjectMembershipDelete` -/
def resourceGitlabProjectMembershipDelete (c : Client) (d : MembershipData) :
    Outcome MembershipData :=
  let id := d.id
  match projectIdAndUserIdFromId id with
  | (_, _, some err) => Outcome.returned d (some (Diag.fromErr err)) []
  | (projectId, userId, none) =>
    let calls := [Call.deleteProjectMember projectId userId]
    match (c.deleteProjectMember projectId userId).err with
    | some err => Outcome.returned d (some (Diag.fromErr err)) calls
    | none => Outcome.returned d none calls

/-! ## `resource_gitlab_service_jira.go` -/

/-- `resourceGitlabServiceJiraRead`. In the branch of a project that is not
found, the log line reads `p.Name` of the project handed back with the error
before the identity is cleared: with a nil project the process panics there. -/
def resourceGitlabServiceJiraRead (c : Client) (d : JiraData) : Outcome JiraData :=
  let project := d.attrs.project
  let calls := [Call.getProject project]
  match (c.getProject project).err with
  | some err =>
    if respIsNotFound (c.getProject project).resp then
      match (c.getProject project).value with
      | none => Outcome.panic calls
      | some _ => Outcome.returned (d.SetId "") none calls
    else Outcome.returned d (some (Diag.fromErr err)) calls
  | none =>
    let calls := calls ++ [Call.getJiraService project]
    match (c.getJiraService project).err with
    | some err =>
      if is404 err then Outcome.returned (d.SetId "") none calls
      else Outcome.returned d (some (Diag.fromErr err)) calls
    | none =>
      match (c.getJiraService project).value with
      | none => Outcome.panic calls
      | some jiraService =>
        match jiraService.Properties with
        | none => Outcome.panic calls
        | some properties =>
          let d := if properties.URL ≠ "" then
              { d with attrs := { d.attrs with url := properties.URL } }
            else d
          let d := if properties.Username ≠ "" then
              { d with attrs := { d.attrs with username := properties.Username } }
            else d
          let d := if properties.ProjectKey ≠ "" then
              { d with attrs := { d.attrs with project_key := properties.ProjectKey } }
            else d
          let d := if properties.JiraIssueTransitionID ≠ "" then
              { d with attrs :=
                { d.attrs with jira_issue_transition_id := properties.JiraIssueTransitionID } }
            else d
          let d := { d with attrs := { d.attrs with title := jiraService.Title } }
          match jiraService.CreatedAt with
          | none => Outcome.panic calls
          | some createdAt =>
            let d := { d with attrs := { d.attrs with created_at := createdAt } }
            match jiraService.UpdatedAt with
            | none => Outcome.panic calls
            | some updatedAt =>
              let d := { d with attrs := { d.attrs with updated_at := updatedAt } }
              let d := { d with attrs := { d.attrs with active := jiraService.Active } }
              let d := { d with attrs := { d.attrs with push_events := jiraService.PushEvents } }
              let d := { d with attrs :=
                { d.attrs with issues_events := jiraService.IssuesEvents } }
              let d := { d with attrs :=
                { d.attrs with commit_events := jiraService.CommitEvents } }
              let d := { d with attrs :=
                { d.attrs with merge_requests_events := jiraService.MergeRequestsEvents } }
              let d := { d with attrs :=
                { d.attrs with comment_on_event_enabled := jiraService.CommentOnEventEnabled } }
              let d := { d with attrs :=
                { d.attrs with tag_push_events := jiraService.TagPushEvents } }
              let d := { d with attrs := { d.attrs with note_events := jiraService.NoteEvents } }
              let d := { d with attrs :=
                { d.attrs with pipeline_events := jiraService.PipelineEvents } }
              let d := { d with attrs := { d.attrs with job_events := jiraService.JobEvents } }
              Outcome.returned d none calls

/-! ## Fixtures -/

/-- The error of an API answer with HTTP status 404. -/
def notFoundErr : Err := Err.remote (some 404) "404 Not Found"

/-- The error of an API answer with HTTP status 500. -/
def serverErr : Err := Err.remote (some 500) "500 Internal Server Error"

/-- A remote of the given version on which every entity is absent: each fetch,
update and deletion is answered with status 404, a nil entity and an error;
creations fail with status 500, and no local file can be opened. -/
def absentRemote (v : Version) : Client where
  version := Except.ok v
  openFile := fun _ => Except.error "no such file or directory"
  createTopic := fun _ => ⟨none, some ⟨500⟩, some serverErr⟩
  getTopic := fun _ => ⟨none, some ⟨404⟩, some notFoundErr⟩
  updateTopic := fun _ _ => ⟨none, some ⟨404⟩, some notFoundErr⟩
  deleteTopic := fun _ => ⟨none, some ⟨404⟩, some notFoundErr⟩
  addProjectMember := fun _ _ => ⟨none, some ⟨500⟩, some serverErr⟩
  getProjectMember := fun _ _ => ⟨none, some ⟨404⟩, some notFoundErr⟩
  deleteProjectMember := fun _ _ => ⟨none, some ⟨404⟩, some notFoundErr⟩
  getProject := fun _ => ⟨none, some ⟨404⟩, some notFoundErr⟩
  getJiraService := fun _ => ⟨none, some ⟨404⟩, some notFoundErr⟩

/-- A remote of the given version that fails every request with status 500. -/
def failingRemote (v : Version) : Client where
  version := Except.ok v
  openFile := fun _ => Except.error "no such file or directory"
  createTopic := fun _ => ⟨none, some ⟨500⟩, some serverErr⟩
  getTopic := fun _ => ⟨none, some ⟨500⟩, some serverErr⟩
  updateTopic := fun _ _ => ⟨none, some ⟨500⟩, some serverErr⟩
  deleteTopic := fun _ => ⟨none, some ⟨500⟩, some serverErr⟩
  addProjectMember := fun _ _ => ⟨none, some ⟨500⟩, some serverErr⟩
  getProjectMember := fun _ _ => ⟨none, some ⟨500⟩, some serverErr⟩
  deleteProjectMember := fun _ _ => ⟨none, some ⟨500⟩, some serverErr⟩
  getProject := fun _ => ⟨none, some ⟨500⟩, some serverErr⟩
  getJiraService := fun _ => ⟨none, some ⟨500⟩, some serverErr⟩

/-- A remote of the given version that holds the given topic and answers every
topic request with it and status 200; its other requests fail with status 500. -/
def topicRemote (v : Version) (topic : Topic) : Client where
  version := Except.ok v
  openFile := fun _ => Except.error "no such file or directory"
  createTopic := fun _ => ⟨some topic, some ⟨200⟩, none⟩
  getTopic := fun _ => ⟨some topic, some ⟨200⟩, none⟩
  updateTopic := fun _ _ => ⟨some topic, some ⟨200⟩, none⟩
  deleteTopic := fun _ => ⟨some (), some ⟨200⟩, none⟩
  addProjectMember := fun _ _ => ⟨none, some ⟨500⟩, some serverErr⟩
  getProjectMember := fun _ _ => ⟨none, some ⟨500⟩, some serverErr⟩
  deleteProjectMember := fun _ _ => ⟨none, some ⟨500⟩, some serverErr⟩
  getProject := fun _ => ⟨none, some ⟨500⟩, some serverErr⟩
  getJiraService := fun _ => ⟨none, some ⟨500⟩, some serverErr⟩

/-- A remote whose version cannot be determined. -/
def versionlessRemote : Client :=
  { failingRemote ⟨0, 0, 0⟩ with version := Except.error serverErr }

/-- Topic attributes with nothing set. -/
def emptyTopicAttrs : TopicAttrs :=
  { name := "", title := "", soft_destroy := false, description := "", avatar := "",
    avatar_hash := "", avatar_url := "" }

/-- A stored topic "topic-a" of identity "42" without a title, unchanged since
it was read. -/
def topicA : TopicData :=
  { id := "42"
    state := { emptyTopicAttrs with name := "topic-a" }
    attrs := { emptyTopicAttrs with name := "topic-a" } }

/-- The topic "topic-a" with the title "Topic A". -/
def topicATitled : TopicData :=
  { id := "42"
    state := { emptyTopicAttrs with name := "topic-a", title := "Topic A" }
    attrs := { emptyTopicAttrs with name := "topic-a", title := "Topic A" } }

/-- A stored topic of identity "42" with a description and an avatar, and with
`soft_destroy` set. -/
def topicSoft : TopicData :=
  { id := "42"
    state := { emptyTopicAttrs with
      name := "topic-a", description := "A topic", avatar := "a.png", avatar_hash := "abc",
      soft_destroy := true }
    attrs := { emptyTopicAttrs with
      name := "topic-a", description := "A topic", avatar := "a.png", avatar_hash := "abc",
      soft_destroy := true } }

/-- The topic "topic-a" as the remote holds it. -/
def remoteTopicA : Topic :=
  { ID := 42, Name := "topic-a", Title := "", Description := "A topic",
    AvatarURL := "https://gitlab.example.com/uploads/a.png" }

/-- A stored membership of user 12 in project "grp/proj". -/
def membershipA : MembershipData :=
  { id := "grp/proj:12"
    attrs := { project_id := "grp/proj", user_id := 12, access_level := "developer" } }

/-- Access level tables that know no level. -/
def noAccessLevels : AccessLevels :=
  { accessLevelNameToValue := fun _ => 0, accessLevelValueToName := fun _ => "" }

/-- A stored Jira integration of project "grp/proj". -/
def jiraA : JiraData :=
  { id := "grp/proj"
    attrs :=
      { project := "grp/proj", title := "", created_at := "", updated_at := "", active := false,
        url := "https://jira.example.com", project_key := "PROJ", username := "bot",
        password := "secret", jira_issue_transition_id := "2", push_events := false,
        issues_events := false, commit_events := false, merge_requests_events := false,
        tag_push_events := false, note_events := false, pipeline_events := false,
        job_events := false, comment_on_event_enabled := false } }

/-- The payload of the Update that topic Delete issues under `soft_destroy`:
an empty description and nothing else. -/
def emptyDescriptionOptions : UpdateTopicOptions :=
  { Name := none, Title := none, Description := some "", Avatar := none }

/-- An update payload clears the fields of a topic other than its name when it
carries the empty value for each: an empty title, an empty description, and the
empty avatar that `updateAvatar` sends to have an avatar removed. -/
def clearsNonIdentityFields (o : UpdateTopicOptions) : Prop :=
  o.Title = some "" ∧ o.Description = some "" ∧ o.Avatar = some ⟨"", none⟩

instance decidableClearsNonIdentityFields (o : UpdateTopicOptions) :
    Decidable (clearsNonIdentityFields o) := by
  unfold clearsNonIdentityFields; infer_instance

/-- The `UpdateTopicOptions` that `resourceGitlabTopicUpdate` has built when it
issues its request: empty at first, then the name, the title and the
description, each under its `d.HasChange`, then the avatar that `updateAvatar`
handed back, when it is not nil. -/
def topicUpdateOptions (d : TopicData) (avatar : Option avatar) : UpdateTopicOptions :=
  let options : UpdateTopicOptions :=
    { Name := none, Title := none, Description := none, Avatar := none }
  let options :=
    if HasChange d.state.name d.attrs.name then { options with Name := some d.attrs.name }
    else options
  let options :=
    if HasChange d.state.title d.attrs.title then { options with Title := some d.attrs.title }
    else options
  let options :=
    if HasChange d.state.description d.attrs.description then
      { options with Description := some d.attrs.description }
    else options
  match avatar with
  | some avatar =>
    { options with Avatar := some { Filename := avatar.Filename, Image := avatar.Image } }
  | none => options

/-- The stored topic "topic-a" with a title and an avatar of hash "abc", whose
description alone was changed, from "old" to "new". -/
def topicDescriptionChanged : TopicData :=
  { id := "42"
    state := { emptyTopicAttrs with
      name := "topic-a", title := "Topic A", description := "old", avatar := "a.png",
      avatar_hash := "abc" }
    attrs := { emptyTopicAttrs with
      name := "topic-a", title := "Topic A", description := "new", avatar := "a.png",
      avatar_hash := "abc" } }

/-- Jira properties as a remote hands them back when every one is empty. -/
def blankJiraProperties : JiraServiceProperties :=
  { URL := "", Username := "", ProjectKey := "", JiraIssueTransitionID := "" }

/-- A Jira service of the remote whose properties are all empty. -/
def blankJiraService : JiraService :=
  { Title := "Jira", CreatedAt := some "2022-01-01 00:00:00 +0000 UTC",
    UpdatedAt := some "2022-01-02 00:00:00 +0000 UTC", Active := true, PushEvents := false,
    IssuesEvents := false, CommitEvents := true, MergeRequestsEvents := true,
    CommentOnEventEnabled := true, TagPushEvents := false, NoteEvents := false,
    PipelineEvents := false, JobEvents := false, Properties := some blankJiraProperties }

/-- A remote that holds every project and answers the fetch of its Jira service
with the given one. -/
def jiraRemote (jiraService : JiraService) : Client :=
  { failingRemote ⟨15, 0, 0⟩ with
    getProject := fun project => ⟨some ⟨project⟩, some ⟨200⟩, none⟩
    getJiraService := fun _ => ⟨some jiraService, some ⟨200⟩, none⟩ }

/-- The stored integration `jiraA` after a Read that wrote the computed
attributes of `blankJiraService` and none of the four properties. -/
def jiraAAfterBlankRead : JiraData :=
  { jiraA with attrs :=
    { jiraA.attrs with
      title := "Jira", created_at := "2022-01-01 00:00:00 +0000 UTC",
      updated_at := "2022-01-02 00:00:00 +0000 UTC", active := true, commit_events := true,
      merge_requests_events := true, comment_on_event_enabled := true } }

/-! ## Lemmas on the decimal codec -/

theorem digitChar_facts :
    ∀ d, d < 10 → (Nat.digitChar d).isDigit = true ∧ digitVal (Nat.digitChar d) = d ∧
      Nat.digitChar d ≠ ':' ∧ Nat.digitChar d ≠ '+' ∧ Nat.digitChar d ≠ '-' := by
  decide

theorem digitsValue_ge (l : List Char) (n : Nat) : n ≤ digitsValue l n := by
  induction l generalizing n with
  | nil => simp [digitsValue]
  | cons c cs ih =>
    have h := ih (n * 10 + digitVal c)
    simp only [digitsValue, List.foldl_cons] at h ⊢
    omega

theorem digitsValue_append_singleton (l : List Char) (c : Char) (n : Nat) :
    digitsValue (l ++ [c]) n = digitsValue l n * 10 + digitVal c := by
  simp [digitsValue, List.foldl_append]

/-- What `Nat.toDigitsCore` yields in base 10 with enough fuel: a nonempty
string of decimal digits of value `n`, put before the digits already there. -/
theorem toDigitsCore_spec (fuel : Nat) :
    ∀ (n : Nat) (ds : List Char), n < fuel →
      ∃ l, Nat.toDigitsCore 10 fuel n ds = l ++ ds ∧ l ≠ [] ∧
        (∀ c ∈ l, c.isDigit = true ∧ c ≠ ':') ∧ digitsValue l 0 = n := by
  induction fuel with
  | zero => intro n ds h; omega
  | succ fuel ih =>
    intro n ds hn
    have hd := digitChar_facts (n % 10) (Nat.mod_lt _ (by decide))
    by_cases h0 : n / 10 = 0
    · refine ⟨[Nat.digitChar (n % 10)], ?_, by simp, ?_, ?_⟩
      · simp [Nat.toDigitsCore, h0]
      · intro c hc
        simp only [List.mem_singleton] at hc
        subst hc
        exact ⟨hd.1, hd.2.2.1⟩
      · simp only [digitsValue, List.foldl_cons, List.foldl_nil, hd.2.1]
        omega
    · obtain ⟨l, hl, _, hdig, hval⟩ := ih (n / 10) (Nat.digitChar (n % 10) :: ds) (by omega)
      refine ⟨l ++ [Nat.digitChar (n % 10)], ?_, by simp, ?_, ?_⟩
      · simp [Nat.toDigitsCore, h0, hl]
      · intro c hc
        rcases List.mem_append.1 hc with hc | hc
        · exact hdig c hc
        · simp only [List.mem_singleton] at hc
          subst hc
          exact ⟨hd.1, hd.2.2.1⟩
      · rw [digitsValue_append_singleton, hval, hd.2.1]
        omega

theorem toDigits_spec (n : Nat) :
    ∃ l, Nat.toDigits 10 n = l ∧ l ≠ [] ∧
      (∀ c ∈ l, c.isDigit = true ∧ c ≠ ':') ∧ digitsValue l 0 = n := by
  obtain ⟨l, hl, hne, hdig, hval⟩ := toDigitsCore_spec (n + 1) n [] (by omega)
  exact ⟨l, by simpa [Nat.toDigits] using hl, hne, hdig, hval⟩

/-- On decimal digits whose value fits `uint64`, the loop of `ParseUint`
yields the value. -/
theorem parseUintLoop_digits (l : List Char) :
    ∀ n, (∀ c ∈ l, c.isDigit = true) → digitsValue l n ≤ maxUint64 →
      parseUintLoop l n = UintResult.ok (digitsValue l n) := by
  induction l with
  | nil => intro n _ _; simp [parseUintLoop, digitsValue]
  | cons c cs ih =>
    intro n hdig hle
    have hc : c.isDigit = true := hdig c (List.mem_cons_self _ _)
    have hcs : ∀ c ∈ cs, c.isDigit = true := fun x hx => hdig x (List.mem_cons_of_mem _ hx)
    have hge := digitsValue_ge cs (n * 10 + digitVal c)
    have hstep : digitsValue (c :: cs) n = digitsValue cs (n * 10 + digitVal c) := by
      simp [digitsValue]
    rw [hstep] at hle ⊢
    have hmax : maxUint64 = 18446744073709551615 := by decide
    have hcut : cutoff = 1844674407370955162 := by decide
    have h1 : ¬ n ≥ cutoff := by rw [hcut]; rw [hmax] at hle; omega
    have h2 : ¬ n * 10 + digitVal c > maxUint64 := by omega
    simp only [parseUintLoop, hc, Bool.not_true, Bool.false_eq_true, if_false, h1, h2]
    exact ih _ hcs hle

/-- `Atoi` undoes `Itoa` on every value of an `int`. -/
theorem Atoi_Itoa (u : Int) (hlo : minInt ≤ u) (hhi : u ≤ maxInt) : Atoi (Itoa u) = (u, none) := by
  obtain ⟨l, hl, hne, hdig, hval⟩ := toDigits_spec u.natAbs
  have hmin : minInt = -9223372036854775808 := by decide
  have hmaxI : maxInt = 9223372036854775807 := by decide
  have hmax : maxUint64 = 18446744073709551615 := by decide
  rw [hmin] at hlo
  rw [hmaxI] at hhi
  have hloop : parseUintLoop l 0 = UintResult.ok u.natAbs := by
    have := parseUintLoop_digits l 0 (fun c hc => (hdig c hc).1) (by rw [hval, hmax]; omega)
    rw [this, hval]
  have hpu : parseUint l = UintResult.ok u.natAbs := by
    cases l with
    | nil => exact absurd rfl hne
    | cons c cs => simpa [parseUint] using hloop
  by_cases hneg : u < 0
  · have hdata : (Itoa u).data = '-' :: l := by simp [Itoa, hneg, hl]
    simp only [Atoi, parseInt, hdata]
    simp only [or_true, if_true, hpu, not_true_eq_false, false_and, if_false, true_and]
    have h1 : ¬ u.natAbs > 2 ^ 63 := by omega
    simp only [h1, if_false]
    congr 1
    omega
  · have hdata : (Itoa u).data = l := by simp [Itoa, hneg, hl]
    cases l with
    | nil => exact absurd rfl hne
    | cons c cs =>
      have hc := hdig c (List.mem_cons_self _ _)
      have hplus : c ≠ '+' := by
        intro h; rw [h] at hc; exact absurd hc.1 (by decide)
      have hminus : c ≠ '-' := by
        intro h; rw [h] at hc; exact absurd hc.1 (by decide)
      simp only [Atoi, parseInt, hdata]
      simp only [hplus, hminus, or_self, if_false, hpu, not_false_eq_true, true_and, false_and]
      have h1 : ¬ u.natAbs ≥ 2 ^ 63 := by omega
      simp only [h1, if_false]
      congr 1
      omega

/-- The rendering of `Itoa` holds no `':'`. -/
theorem Itoa_no_colon (u : Int) : ':' ∉ (Itoa u).data := by
  obtain ⟨l, hl, _, hdig, _⟩ := toDigits_spec u.natAbs
  by_cases hneg : u < 0
  · have hdata : (Itoa u).data = '-' :: l := by simp [Itoa, hneg, hl]
    rw [hdata]
    intro h
    rcases List.mem_cons.1 h with h | h
    · exact absurd h (by decide)
    · exact (hdig _ h).2 rfl
  · have hdata : (Itoa u).data = l := by simp [Itoa, hneg, hl]
    rw [hdata]
    intro h
    exact (hdig _ h).2 rfl

/-- When `Atoi` succeeds its value is an `int`. -/
theorem Atoi_range (s : String) (u : Int) (h : Atoi s = (u, none)) : minInt ≤ u ∧ u ≤ maxInt := by
  have hmin : minInt = -9223372036854775808 := by decide
  have hmaxI : maxInt = 9223372036854775807 := by decide
  unfold Atoi parseInt at h
  split at h
  · simp at h
  · rename_i c cs _
    dsimp only at h
    cases hp : parseUint (if c = '+' ∨ c = '-' then cs else c :: cs) with
    | syntaxError => rw [hp] at h; simp at h
    | rangeError => rw [hp] at h; dsimp only at h; split at h <;> simp at h
    | ok un =>
      rw [hp] at h
      dsimp only at h
      split at h
      · simp at h
      · split at h
        · simp at h
        · rename_i h1 h2
          split at h
          · rename_i h3
            simp only [Prod.mk.injEq, and_true] at h
            simp only [h3, true_and, not_lt] at h2
            omega
          · rename_i h3
            simp only [Prod.mk.injEq, and_true] at h
            simp only [h3, not_false_eq_true, true_and, not_le] at h1
            omega

/-! ## Lemmas on the split -/

/-- No part of a split holds the separator. -/
theorem splitOn_parts_no_sep (l : List Char) :
    ∀ part ∈ l.splitOn ':', ':' ∉ part := by
  induction l with
  | nil => intro part h; simp [List.splitOn] at h; simp [h]
  | cons x xs ih =>
    intro part h
    simp only [List.splitOn, List.splitOnP_cons] at h ih
    by_cases hx : x = ':'
    · simp only [hx, beq_self_eq_true, if_true, List.mem_cons] at h
      rcases h with h | h
      · simp [h]
      · exact ih part h
    · have hx' : (x == ':') = false := by simpa using hx
      simp only [hx', Bool.false_eq_true, if_false] at h
      cases hs : List.splitOnP (fun y => y == ':') xs with
      | nil => rw [hs] at h; simp [List.modifyHead] at h
      | cons p ps =>
        rw [hs] at h ih
        simp only [List.modifyHead, List.mem_cons] at h
        rcases h with h | h
        · rw [h]
          intro hm
          rcases List.mem_cons.1 hm with hm | hm
          · exact hx hm.symm
          · exact ih p (List.mem_cons_self _ _) hm
        · exact ih part (List.mem_cons_of_mem _ h)

/-- A string that splits in two is its two parts around a `':'`. -/
theorem splitOn_two (l a b : List Char) (h : l.splitOn ':' = [a, b]) : l = a ++ ':' :: b := by
  have := List.intercalate_splitOn l ':'
  rw [h] at this
  simpa [List.intercalate, List.intersperse, List.flatten] using this.symm

/-- Two parts without `':'` around a `':'` split in these two parts. -/
theorem splitOn_build (a b : List Char) (ha : ':' ∉ a) (hb : ':' ∉ b) :
    (a ++ ':' :: b).splitOn ':' = [a, b] := by
  have := List.splitOn_intercalate [a, b] ':' (by
    intro l hl
    simp only [List.mem_cons, List.mem_singleton, List.not_mem_nil, or_false] at hl
    rcases hl with hl | hl <;> rw [hl] <;> assumption) (by simp)
  simpa [List.intercalate, List.intersperse, List.flatten] using this

/-! ## The project membership identity -/

/-- What a successful decode says of the identity: it is the project part and
a user part around one `':'`, neither part holds a `':'`, and `Atoi` reads the
user id from the user part. -/
theorem projectIdAndUserIdFromId_ok (id projectId : String) (userId : Int)
    (h : projectIdAndUserIdFromId id = (projectId, userId, none)) :
    ∃ b : List Char, id.data = projectId.data ++ ':' :: b ∧ ':' ∉ projectId.data ∧ ':' ∉ b ∧
      parseTwoPartID id = (projectId, String.mk b, none) ∧ Atoi (String.mk b) = (userId, none) := by
  have hparts := splitOn_parts_no_sep id.data
  rcases hs : id.data.splitOn ':' with _ | ⟨a, _ | ⟨b, _ | ⟨c, r⟩⟩⟩
  · simp [projectIdAndUserIdFromId, parseTwoPartID, hs] at h
  · simp [projectIdAndUserIdFromId, parseTwoPartID, hs] at h
  · rw [hs] at hparts
    have hp : parseTwoPartID id = (String.mk a, String.mk b, none) := by
      simp [parseTwoPartID, hs]
    simp only [projectIdAndUserIdFromId, hp, ne_eq, not_true_eq_false, if_false,
      Prod.mk.injEq] at h
    obtain ⟨h1, h2, h3⟩ := h
    refine ⟨b, ?_, ?_, ?_, ?_, ?_⟩
    · rw [← h1]; exact splitOn_two _ _ _ hs
    · rw [← h1]; exact hparts a (by simp)
    · exact hparts b (by simp)
    · rw [hp, h1]
    · exact Prod.ext h2 h3
  · simp [projectIdAndUserIdFromId, parseTwoPartID, hs] at h

/-- The decode of an identity built from a project id without `':'` and the
rendering of an `int`. -/
theorem projectIdAndUserIdFromId_build (projectId : String) (userId : Int)
    (hp : ':' ∉ projectId.data) (hlo : minInt ≤ userId) (hhi : userId ≤ maxInt) :
    projectIdAndUserIdFromId (buildTwoPartID projectId (Itoa userId))
      = (projectId, userId, none) := by
  have hdata : (buildTwoPartID projectId (Itoa userId)).data
      = projectId.data ++ ':' :: (Itoa userId).data := by
    simp [buildTwoPartID, String.data_append]
  have hs := splitOn_build projectId.data (Itoa userId).data hp (Itoa_no_colon userId)
  simp [projectIdAndUserIdFromId, parseTwoPartID, hdata, hs, Atoi_Itoa userId hlo hhi]

/-- C3 (counterexample): the identity "p:007" decodes to ("p", 7), and the
re-encoding of that pair is "p:7", which is not the identity decoded. -/
theorem identity_roundtrip_counterexample :
    projectIdAndUserIdFromId "p:007" = ("p", 7, none) ∧
      buildTwoPartID "p" (Itoa 7) = "p:7" ∧ buildTwoPartID "p" (Itoa 7) ≠ "p:007" := by
  decide

/-- C3 (amended): for every identity on which `projectIdAndUserIdFromId`
succeeds with (projectId, userId), the re-encoding
`buildTwoPartID(projectId, strconv.Itoa(userId))`, which is the identity that
`resourceGitlabProjectMembershipSetToState` stores, is the identity itself
exactly when the user part of the identity is `strconv.Itoa(userId)`, the
canonical rendering; and in every case the re-encoding decodes to the same
pair. -/
theorem identity_roundtrip_canonical (id projectId : String) (userId : Int)
    (h : projectIdAndUserIdFromId id = (projectId, userId, none)) :
    (buildTwoPartID projectId (Itoa userId) = id ↔ (parseTwoPartID id).2.1 = Itoa userId) ∧
    projectIdAndUserIdFromId (buildTwoPartID projectId (Itoa userId))
      = (projectId, userId, none) ∧
    (∀ (t : AccessLevels) (d : MembershipData) (projectMember : ProjectMember),
      projectMember.ID = userId →
        (resourceGitlabProjectMembershipSetToState t d projectMember projectId).id
          = buildTwoPartID projectId (Itoa userId)) := by
  obtain ⟨b, hid, hp, _, hparse, hatoi⟩ := projectIdAndUserIdFromId_ok id projectId userId h
  have hr := Atoi_range _ _ hatoi
  refine ⟨?_, projectIdAndUserIdFromId_build projectId userId hp hr.1 hr.2, ?_⟩
  · rw [hparse]
    have hdata : (buildTwoPartID projectId (Itoa userId)).data
        = projectId.data ++ ':' :: (Itoa userId).data := by
      simp [buildTwoPartID, String.data_append]
    constructor
    · intro he
      have := congrArg String.data he
      rw [hdata, hid] at this
      have := List.append_cancel_left this
      simp only [List.cons.injEq, true_and] at this
      exact (String.ext this).symm
    · intro he
      apply String.ext
      rw [hdata, hid]
      simp only at he
      rw [← he]
  · intro t d projectMember hpm
    simp [resourceGitlabProjectMembershipSetToState, MembershipData.SetId, hpm]

/-- Witness of C3 (amended): the identity "grp/proj:12", whose user part is
canonical. -/
theorem identity_roundtrip_canonical_witness :
    projectIdAndUserIdFromId "grp/proj:12" = ("grp/proj", 12, none) ∧
      buildTwoPartID "grp/proj" (Itoa 12) = "grp/proj:12" :=
  ⟨by decide,
    (identity_roundtrip_canonical "grp/proj:12" "grp/proj" 12 (by decide)).1.2 (by decide)⟩

/-- C4: for every project id without `':'` and every `int` user id, the
identity that Create stores, `buildTwoPartID(projectId, strconv.Itoa(userId))`,
decodes to (projectId, userId) with a nil error; Read and Delete of a resource
that holds this identity address their one request to that pair, and so does
the Read that ends a Create whose AddProjectMember succeeded. -/
theorem decode_undoes_encode (projectId : String) (userId : Int)
    (hp : ':' ∉ projectId.data) (hlo : minInt ≤ userId) (hhi : userId ≤ maxInt) :
    projectIdAndUserIdFromId (buildTwoPartID projectId (Itoa userId))
      = (projectId, userId, none) ∧
    (∀ (t : AccessLevels) (c : Client) (d : MembershipData),
      (resourceGitlabProjectMembershipRead t c
          (d.SetId (buildTwoPartID projectId (Itoa userId)))).calls
        = [Call.getProjectMember projectId userId] ∧
      (resourceGitlabProjectMembershipDelete c
          (d.SetId (buildTwoPartID projectId (Itoa userId)))).calls
        = [Call.deleteProjectMember projectId userId] ∧
      (d.attrs.project_id = projectId → d.attrs.user_id = userId →
        (c.addProjectMember projectId
            { UserID := some userId,
              AccessLevel := some (t.accessLevelNameToValue d.attrs.access_level) }).err = none →
        (resourceGitlabProjectMembershipCreate t c d).calls
          = [Call.addProjectMember projectId
              { UserID := some userId,
                AccessLevel := some (t.accessLevelNameToValue d.attrs.access_level) },
             Call.getProjectMember projectId userId])) := by
  have hdec := projectIdAndUserIdFromId_build projectId userId hp hlo hhi
  have hread : ∀ (t : AccessLevels) (c : Client) (d : MembershipData),
      (resourceGitlabProjectMembershipRead t c
          (d.SetId (buildTwoPartID projectId (Itoa userId)))).calls
        = [Call.getProjectMember projectId userId] := by
    intro t c d
    simp only [resourceGitlabProjectMembershipRead, MembershipData.SetId, hdec]
    cases (c.getProjectMember projectId userId).err with
    | some err =>
      cases respIsNotFound (c.getProjectMember projectId userId).resp <;> simp [Outcome.calls]
    | none =>
      cases (c.getProjectMember projectId userId).value <;> simp [Outcome.calls]
  have hafter : ∀ (pre : List Call) (o : Outcome MembershipData),
      (o.after pre).calls = pre ++ o.calls := by
    intro pre o
    cases o <;> rfl
  refine ⟨hdec, ?_⟩
  intro t c d
  refine ⟨hread t c d, ?_, ?_⟩
  rotate_left
  · intro hpid huid hadd
    simp only [resourceGitlabProjectMembershipCreate, hpid, huid, hadd, hafter, hread]
    rfl
  · simp only [resourceGitlabProjectMembershipDelete, MembershipData.SetId, hdec]
    cases (c.deleteProjectMember projectId userId).err <;> simp [Outcome.calls]

/-- Witness of C4: project "grp/proj" and user -3. -/
theorem decode_undoes_encode_witness :
    projectIdAndUserIdFromId (buildTwoPartID "grp/proj" (Itoa (-3))) = ("grp/proj", -3, none) :=
  (decode_undoes_encode "grp/proj" (-3) (by decide) (by decide) (by decide)).1

/-- C5: for every identity that does not split in exactly two parts on `':'`,
`projectIdAndUserIdFromId` returns the error of the split, not the syntax error
that `Atoi` gives on the empty user part, and the Read and the Delete of a
membership with that identity return this error without any request. -/
theorem malformed_identity_error (id : String) (h : (id.data.splitOn ':').length ≠ 2) :
    projectIdAndUserIdFromId id = ("", 0, some (Err.unexpectedIDFormat id)) ∧
    Atoi "" = (0, some (Err.atoiSyntax "")) ∧
    (∀ (t : AccessLevels) (c : Client) (d : MembershipData), d.id = id →
      resourceGitlabProjectMembershipRead t c d
        = Outcome.returned d (some (Diag.fromErr (Err.unexpectedIDFormat id))) [] ∧
      resourceGitlabProjectMembershipDelete c d
        = Outcome.returned d (some (Diag.fromErr (Err.unexpectedIDFormat id))) []) := by
  have hparse : parseTwoPartID id = ("", "", some (Err.unexpectedIDFormat id)) := by
    unfold parseTwoPartID
    split
    · rename_i a b hs
      rw [hs] at h
      simp at h
    · rfl
  have hdec : projectIdAndUserIdFromId id = ("", 0, some (Err.unexpectedIDFormat id)) := by
    have ha : Atoi "" = (0, some (Err.atoiSyntax "")) := by decide
    simp [projectIdAndUserIdFromId, hparse, ha]
  refine ⟨hdec, by decide, ?_⟩
  intro t c d hd
  subst hd
  constructor
  · simp [resourceGitlabProjectMembershipRead, hdec]
  · simp [resourceGitlabProjectMembershipDelete, hdec]

/-- Witness of C5: the identity "123", of one part. -/
theorem malformed_identity_error_witness :
    projectIdAndUserIdFromId "123" = ("", 0, some (Err.unexpectedIDFormat "123")) :=
  (malformed_identity_error "123" (by decide)).1

/-! ## Read of an entity that is not found -/

/-- C1 (the code at the failing input): when the project fetch of the Jira
Read fails with a 404 response and hands back a nil project with the error, Read
does not clear the identity: it panics on the nil project, after the one
fetch. -/
theorem jira_read_not_found_nil_project_panics (c : Client) (d : JiraData) (resp : Response)
    (err : Err) (hresp : resp.StatusCode = 404)
    (h : c.getProject d.attrs.project = ⟨none, some resp, some err⟩) :
    resourceGitlabServiceJiraRead c d = Outcome.panic [Call.getProject d.attrs.project] := by
  simp [resourceGitlabServiceJiraRead, h, respIsNotFound, hresp]

/-- Witness of C1: the stored integration `jiraA` read on a remote that holds
no project. -/
theorem jira_read_not_found_nil_project_panics_witness :
    resourceGitlabServiceJiraRead (absentRemote ⟨15, 0, 0⟩) jiraA
      = Outcome.panic [Call.getProject "grp/proj"] :=
  jira_read_not_found_nil_project_panics (absentRemote ⟨15, 0, 0⟩) jiraA ⟨404⟩ notFoundErr rfl rfl

/-- C2: for a topic and for a project membership whose identity decodes, a
fetch that reports not-found makes Read return no diagnostics and resource data
whose stored identity is the empty string, the attributes being as they were;
a fetch that fails otherwise makes Read return an error diagnostic with the
resource data, its identity included, as they were. In both cases the fetch is
the only request. -/
theorem read_not_found_clears_identity (t : AccessLevels) (c : Client) :
    (∀ (d : TopicData) (topicID : Int) (err : Err),
      Atoi d.id = (topicID, none) → (c.getTopic topicID).err = some err →
        (is404 err = true →
          resourceGitlabTopicRead c d
            = Outcome.returned { id := "", state := d.state, attrs := d.attrs } none
                [Call.getTopic topicID]) ∧
        (is404 err = false →
          resourceGitlabTopicRead c d
            = Outcome.returned d (some (Diag.failedToReadTopic topicID err))
                [Call.getTopic topicID])) ∧
    (∀ (d : MembershipData) (projectId : String) (userId : Int) (err : Err),
      projectIdAndUserIdFromId d.id = (projectId, userId, none) →
      (c.getProjectMember projectId userId).err = some err →
        (respIsNotFound (c.getProjectMember projectId userId).resp = true →
          resourceGitlabProjectMembershipRead t c d
            = Outcome.returned { id := "", attrs := d.attrs } none
                [Call.getProjectMember projectId userId]) ∧
        (respIsNotFound (c.getProjectMember projectId userId).resp = false →
          resourceGitlabProjectMembershipRead t c d
            = Outcome.returned d (some (Diag.fromErr err))
                [Call.getProjectMember projectId userId])) := by
  refine ⟨?_, ?_⟩
  · intro d topicID err hid herr
    constructor <;> intro h404 <;>
      simp [resourceGitlabTopicRead, hid, herr, h404, TopicData.SetId]
  · intro d projectId userId err hid herr
    constructor <;> intro h404 <;>
      simp [resourceGitlabProjectMembershipRead, hid, herr, h404, MembershipData.SetId]

/-- Witness of C2: the topic "42" and the membership "grp/proj:12", read on a
remote where they are absent and on a remote that fails with status 500. -/
theorem read_not_found_clears_identity_witness :
    (resourceGitlabTopicRead (absentRemote ⟨15, 0, 0⟩) topicA
      = Outcome.returned { id := "", state := topicA.state, attrs := topicA.attrs } none
          [Call.getTopic 42]) ∧
    (resourceGitlabTopicRead (failingRemote ⟨15, 0, 0⟩) topicA
      = Outcome.returned topicA (some (Diag.failedToReadTopic 42 serverErr))
          [Call.getTopic 42]) ∧
    (resourceGitlabProjectMembershipRead noAccessLevels (absentRemote ⟨15, 0, 0⟩) membershipA
      = Outcome.returned { id := "", attrs := membershipA.attrs } none
          [Call.getProjectMember "grp/proj" 12]) ∧
    (resourceGitlabProjectMembershipRead noAccessLevels (failingRemote ⟨15, 0, 0⟩) membershipA
      = Outcome.returned membershipA (some (Diag.fromErr serverErr))
          [Call.getProjectMember "grp/proj" 12]) :=
  ⟨((read_not_found_clears_identity noAccessLevels (absentRemote ⟨15, 0, 0⟩)).1
      topicA 42 notFoundErr (by decide) rfl).1 (by decide),
   ((read_not_found_clears_identity noAccessLevels (failingRemote ⟨15, 0, 0⟩)).1
      topicA 42 serverErr (by decide) rfl).2 (by decide),
   ((read_not_found_clears_identity noAccessLevels (absentRemote ⟨15, 0, 0⟩)).2
      membershipA "grp/proj" 12 notFoundErr (by decide) rfl).1 (by decide),
   ((read_not_found_clears_identity noAccessLevels (failingRemote ⟨15, 0, 0⟩)).2
      membershipA "grp/proj" 12 serverErr (by decide) rfl).2 (by decide)⟩

/-! ## The version gates of the topic -/

/-- C6: with the remote version determined, `resourceGitlabTopicEnsureTitleSupport`
returns an error exactly when the version is at least 15.0 and the title is not
set, or the version is below 15.0 and the title is set; the error is the
missing title one in the first case and the unsupported title one in the
second. With the version undetermined, the error of the version query is
returned whatever the title. The title is set when `d.GetOk` says so. -/
theorem ensure_title_support_iff (c : Client) (d : TopicData) :
    (∀ v, c.version = Except.ok v →
      (((resourceGitlabTopicEnsureTitleSupport c d).1 ≠ none ↔
        (Version.le ⟨15, 0, 0⟩ v = true ∧ (GetOk d.attrs.title).2 = false) ∨
        (Version.le ⟨15, 0, 0⟩ v = false ∧ (GetOk d.attrs.title).2 = true)) ∧
      (Version.le ⟨15, 0, 0⟩ v = true → (GetOk d.attrs.title).2 = false →
        (resourceGitlabTopicEnsureTitleSupport c d).1 = some Err.titleRequired) ∧
      (Version.le ⟨15, 0, 0⟩ v = false → (GetOk d.attrs.title).2 = true →
        (resourceGitlabTopicEnsureTitleSupport c d).1 = some Err.titleNotSupported))) ∧
    (∀ err, c.version = Except.error err →
      (resourceGitlabTopicEnsureTitleSupport c d).1 = some err) := by
  refine ⟨?_, ?_⟩
  · intro v hv
    cases hle : Version.le ⟨15, 0, 0⟩ v <;> cases hok : (GetOk d.attrs.title).2 <;>
      simp [resourceGitlabTopicEnsureTitleSupport, isGitLabVersionAtLeast, hv, hle, hok]
  · intro err hv
    simp [resourceGitlabTopicEnsureTitleSupport, isGitLabVersionAtLeast, hv]

/-- Witness of C6: the untitled topic on 15.0, the titled topic on 14.10, the
titled topic on 15.1, and a remote whose version cannot be determined. -/
theorem ensure_title_support_iff_witness :
    (resourceGitlabTopicEnsureTitleSupport (absentRemote ⟨15, 0, 0⟩) topicA).1
      = some Err.titleRequired ∧
    (resourceGitlabTopicEnsureTitleSupport (absentRemote ⟨14, 10, 0⟩) topicATitled).1
      = some Err.titleNotSupported ∧
    ¬ (resourceGitlabTopicEnsureTitleSupport (absentRemote ⟨15, 1, 0⟩) topicATitled).1 ≠ none ∧
    (resourceGitlabTopicEnsureTitleSupport versionlessRemote topicA).1 = some serverErr :=
  ⟨((ensure_title_support_iff (absentRemote ⟨15, 0, 0⟩) topicA).1 ⟨15, 0, 0⟩ rfl).2.1
      (by decide) (by decide),
   ((ensure_title_support_iff (absentRemote ⟨14, 10, 0⟩) topicATitled).1 ⟨14, 10, 0⟩ rfl).2.2
      (by decide) (by decide),
   fun h =>
    absurd (((ensure_title_support_iff (absentRemote ⟨15, 1, 0⟩) topicATitled).1
      ⟨15, 1, 0⟩ rfl).1.1 h) (by decide),
   (ensure_title_support_iff versionlessRemote topicA).2 serverErr rfl⟩

/-- C7: without a title, against a remote of version 15.0 or newer, topic
Create returns the missing title error after the version query alone: no
CreateTopic request, no avatar file opened, and the resource data, its identity
included, as they were. Topic Update stops at the same gate, before any
UpdateTopic request. -/
theorem create_without_title_fails_before_any_call (c : Client) (d : TopicData) (v : Version)
    (hv : c.version = Except.ok v) (hle : Version.le ⟨15, 0, 0⟩ v = true)
    (htitle : (GetOk d.attrs.title).2 = false) :
    resourceGitlabTopicCreate c d
      = Outcome.returned d (some (Diag.fromErr Err.titleRequired)) [Call.getVersion] ∧
    resourceGitlabTopicUpdate c d
      = Outcome.returned d (some (Diag.fromErr Err.titleRequired)) [Call.getVersion] := by
  have hgate : resourceGitlabTopicEnsureTitleSupport c d
      = (some Err.titleRequired, [Call.getVersion]) := by
    simp [resourceGitlabTopicEnsureTitleSupport, isGitLabVersionAtLeast, hv, hle, htitle]
  constructor
  · simp [resourceGitlabTopicCreate, hgate]
  · simp [resourceGitlabTopicUpdate, hgate]

/-- Witness of C7: the untitled "topic-a" against a remote of version 15.0. -/
theorem create_without_title_fails_before_any_call_witness :
    resourceGitlabTopicCreate (topicRemote ⟨15, 0, 0⟩ remoteTopicA) topicA
      = Outcome.returned topicA (some (Diag.fromErr Err.titleRequired)) [Call.getVersion] :=
  (create_without_title_fails_before_any_call (topicRemote ⟨15, 0, 0⟩ remoteTopicA) topicA
    ⟨15, 0, 0⟩ rfl (by decide) (by decide)).1

/-- C8 (the code at the failing inputs): for a topic with a numeric identity
and `soft_destroy` set, against a remote version below 14.9, topic Delete
issues, after the version query, one Update and no DeleteTopic, and returns
success when that Update succeeds; but the payload of that Update carries an
empty description and no other field, so it does not clear the other fields of
the topic: its title and its avatar field are absent. -/
theorem soft_delete_empties_description (c : Client) (d : TopicData) (topicID : Int)
    (v : Version) (hid : Atoi d.id = (topicID, none)) (hsoft : d.attrs.soft_destroy = true)
    (hv : c.version = Except.ok v) (hlt : Version.le ⟨14, 9, 0⟩ v = false) :
    (resourceGitlabTopicDelete c d).calls
      = [Call.getVersion,
          Call.updateTopic topicID
            { Name := none, Title := none, Description := some "", Avatar := none }] ∧
    ¬ clearsNonIdentityFields
        { Name := none, Title := none, Description := some "", Avatar := none } ∧
    ((c.updateTopic topicID
          { Name := none, Title := none, Description := some "", Avatar := none }).err = none →
      resourceGitlabTopicDelete c d
        = Outcome.returned d none
            [Call.getVersion,
              Call.updateTopic topicID
                { Name := none, Title := none, Description := some "", Avatar := none }]) := by
  refine ⟨?_, by decide, ?_⟩
  · cases he : (c.updateTopic topicID
        { Name := none, Title := none, Description := some "", Avatar := none }).err <;>
      simp [resourceGitlabTopicDelete, isGitLabVersionLessThan, isGitLabVersionAtLeast, hid,
        hsoft, hv, hlt, he, Outcome.calls]
  · intro he
    simp [resourceGitlabTopicDelete, isGitLabVersionLessThan, isGitLabVersionAtLeast, hid,
      hsoft, hv, hlt, he]

/-- Witness of C8: the topic `topicSoft`, which has a description and an
avatar, deleted against version 14.8 on a remote where the Update succeeds:
Delete returns success after an Update that carries the empty description
alone. -/
theorem soft_delete_empties_description_witness :
    resourceGitlabTopicDelete (topicRemote ⟨14, 8, 0⟩ remoteTopicA) topicSoft
      = Outcome.returned topicSoft none
          [Call.getVersion,
            Call.updateTopic 42
              { Name := none, Title := none, Description := some "", Avatar := none }] :=
  (soft_delete_empties_description (topicRemote ⟨14, 8, 0⟩ remoteTopicA) topicSoft 42
    ⟨14, 8, 0⟩ (by decide) rfl rfl (by decide)).2.2 rfl

/-- C9 (counterexample): against version 15.0, Delete of a topic with
`soft_destroy` set issues the Update and no DeleteTopic. -/
theorem delete_on_new_version_counterexample :
    Version.le ⟨14, 9, 0⟩ ⟨15, 0, 0⟩ = true ∧
    resourceGitlabTopicDelete (topicRemote ⟨15, 0, 0⟩ remoteTopicA) topicSoft
      = Outcome.returned topicSoft none
          [Call.getVersion, Call.updateTopic 42 emptyDescriptionOptions] ∧
    Call.deleteTopic 42 ∉
      (resourceGitlabTopicDelete (topicRemote ⟨15, 0, 0⟩ remoteTopicA) topicSoft).calls := by
  decide

/-- C9 (amended): for a topic with a numeric identity against a remote version
of 14.9 or newer, topic Delete issues, after the version query, a DeleteTopic
for that identity and no UpdateTopic when `soft_destroy` is unset; when
`soft_destroy` is set it issues the Update that empties the description and no
DeleteTopic, as it does on older versions. -/
theorem delete_on_new_version (c : Client) (d : TopicData) (topicID : Int) (v : Version)
    (hid : Atoi d.id = (topicID, none)) (hv : c.version = Except.ok v)
    (hle : Version.le ⟨14, 9, 0⟩ v = true) :
    (d.attrs.soft_destroy = false →
      (resourceGitlabTopicDelete c d).calls = [Call.getVersion, Call.deleteTopic topicID]) ∧
    (d.attrs.soft_destroy = true →
      (resourceGitlabTopicDelete c d).calls
        = [Call.getVersion, Call.updateTopic topicID emptyDescriptionOptions]) := by
  constructor
  · intro hsoft
    cases he : (c.deleteTopic topicID).err <;>
      simp [resourceGitlabTopicDelete, isGitLabVersionLessThan, isGitLabVersionAtLeast, hid,
        hsoft, hv, hle, he, Outcome.calls]
  · intro hsoft
    cases he : (c.updateTopic topicID emptyDescriptionOptions).err <;>
      simp [emptyDescriptionOptions] at he <;>
      simp [resourceGitlabTopicDelete, isGitLabVersionLessThan, isGitLabVersionAtLeast, hid,
        hsoft, hv, hle, he, Outcome.calls, emptyDescriptionOptions]

/-- Witness of C9 (amended): the topic "topic-a", `soft_destroy` unset, against
version 14.9. -/
theorem delete_on_new_version_witness :
    (resourceGitlabTopicDelete (topicRemote ⟨14, 9, 0⟩ remoteTopicA) topicA).calls
      = [Call.getVersion, Call.deleteTopic 42] :=
  (delete_on_new_version (topicRemote ⟨14, 9, 0⟩ remoteTopicA) topicA 42 ⟨14, 9, 0⟩
    (by decide) rfl (by decide)).1 rfl

/-- C10: for a topic with a numeric identity, `soft_destroy` unset and a
remote version below 14.9, topic Delete returns the unsupported deletion error
after the version query alone, with neither a DeleteTopic nor an UpdateTopic;
and when the stored identity is no decimal integer, Delete returns the
conversion error without any request, the version query included. -/
theorem delete_unsupported_fails (c : Client) (d : TopicData) :
    (∀ (topicID : Int) (v : Version), Atoi d.id = (topicID, none) →
      d.attrs.soft_destroy = false → c.version = Except.ok v →
      Version.le ⟨14, 9, 0⟩ v = false →
        resourceGitlabTopicDelete c d
          = Outcome.returned d (some Diag.topicDeletionNotSupported) [Call.getVersion]) ∧
    (∀ (n : Int) (err : Err), Atoi d.id = (n, some err) →
      resourceGitlabTopicDelete c d
        = Outcome.returned d (some (Diag.failedToConvertTopicId d.id err)) []) := by
  constructor
  · intro topicID v hid hsoft hv hlt
    simp [resourceGitlabTopicDelete, isGitLabVersionLessThan, isGitLabVersionAtLeast, hid,
      hsoft, hv, hlt]
  · intro n err hid
    simp [resourceGitlabTopicDelete, hid]

/-- Witness of C10: the topic "topic-a" against version 14.8, and a topic whose
identity is "topic-a". -/
theorem delete_unsupported_fails_witness :
    resourceGitlabTopicDelete (topicRemote ⟨14, 8, 0⟩ remoteTopicA) topicA
      = Outcome.returned topicA (some Diag.topicDeletionNotSupported) [Call.getVersion] ∧
    resourceGitlabTopicDelete (topicRemote ⟨14, 8, 0⟩ remoteTopicA) (topicA.SetId "topic-a")
      = Outcome.returned (topicA.SetId "topic-a")
          (some (Diag.failedToConvertTopicId "topic-a" (Err.atoiSyntax "topic-a"))) [] :=
  ⟨(delete_unsupported_fails (topicRemote ⟨14, 8, 0⟩ remoteTopicA) topicA).1 42 ⟨14, 8, 0⟩
      (by decide) rfl rfl (by decide),
   (delete_unsupported_fails (topicRemote ⟨14, 8, 0⟩ remoteTopicA) (topicA.SetId "topic-a")).2
      0 (Err.atoiSyntax "topic-a") (by decide)⟩

/-! ## The payload of topic Update -/

/-- The title gate asks for the version once, whatever it answers. -/
theorem resourceGitlabTopicEnsureTitleSupport_calls (c : Client) (d : TopicData) :
    (resourceGitlabTopicEnsureTitleSupport c d).2 = [Call.getVersion] := by
  unfold resourceGitlabTopicEnsureTitleSupport isGitLabVersionAtLeast
  cases c.version with
  | error err => rfl
  | ok v =>
    dsimp only
    split_ifs <;> rfl

/-- `updateAvatar` leaves the stored identity as it is. -/
theorem updateAvatar_id (c : Client) (d : TopicData) : (updateAvatar c d).2.1.id = d.id := by
  unfold updateAvatar
  by_cases htrig : (HasChange d.state.avatar d.attrs.avatar = true ∨
      HasChange d.state.avatar_hash d.attrs.avatar_hash = true) ∨ d.attrs.avatar_hash = ""
  · rw [if_pos htrig]
    dsimp only
    by_cases hpath : d.attrs.avatar = ""
    · rw [if_pos hpath]
    · rw [if_neg hpath]
      rcases hr : readLocalAvatar c d.attrs.avatar with ⟨⟨a, e⟩, calls⟩
      cases e <;> rfl
  · rw [if_neg htrig]

/-- Topic Read of a numeric identity makes one request, the fetch. -/
theorem resourceGitlabTopicRead_calls (c : Client) (d : TopicData) (topicID : Int)
    (hid : Atoi d.id = (topicID, none)) :
    (resourceGitlabTopicRead c d).calls = [Call.getTopic topicID] := by
  simp only [resourceGitlabTopicRead, hid]
  cases (c.getTopic topicID).err with
  | some err => by_cases h : is404 err = true <;> simp [h, Outcome.calls]
  | none => cases (c.getTopic topicID).value <;> simp [Outcome.calls]

/-- The requests of a handler run after others. -/
theorem Outcome.calls_after {σ : Type} (pre : List Call) (o : Outcome σ) :
    (o.after pre).calls = pre ++ o.calls := by
  cases o <;> rfl

/-- The requests of a topic Update that passes the title gate, whose avatar
step succeeds and whose identity is numeric: the version query, the requests of
the avatar step, one UpdateTopic with the payload `topicUpdateOptions`, and the
fetch of the final Read when the update succeeded. -/
theorem resourceGitlabTopicUpdate_calls (c : Client) (d : TopicData) (topicID : Int)
    (hgate : (resourceGitlabTopicEnsureTitleSupport c d).1 = none)
    (hav : (updateAvatar c d).1.2 = none) (hid : Atoi d.id = (topicID, none)) :
    ∃ rest, (rest = [] ∨ rest = [Call.getTopic topicID]) ∧
      (resourceGitlabTopicUpdate c d).calls
        = Call.getVersion :: ((updateAvatar c d).2.2 ++
            Call.updateTopic topicID (topicUpdateOptions d (updateAvatar c d).1.1) :: rest) := by
  have hg : resourceGitlabTopicEnsureTitleSupport c d = (none, [Call.getVersion]) :=
    Prod.ext hgate (resourceGitlabTopicEnsureTitleSupport_calls c d)
  have hid1 : Atoi (updateAvatar c d).2.1.id = (topicID, none) := by
    rw [updateAvatar_id, hid]
  rcases hua : updateAvatar c d with ⟨⟨avatar, e⟩, d1, calls1⟩
  rw [hua] at hav hid1
  simp only at hav hid1
  subst hav
  simp only [resourceGitlabTopicUpdate, hg, hua, hid1]
  cases he : (c.updateTopic topicID (topicUpdateOptions d avatar)).err with
  | some err =>
    refine ⟨[], Or.inl rfl, ?_⟩
    unfold topicUpdateOptions at he
    simp only [he, Outcome.calls, topicUpdateOptions]
    simp
  | none =>
    refine ⟨[Call.getTopic topicID], Or.inr rfl, ?_⟩
    unfold topicUpdateOptions at he
    simp only [he, Outcome.calls_after, resourceGitlabTopicRead_calls c d1 topicID hid1,
      topicUpdateOptions]
    simp

/-- C11: for a topic Update that passes the title gate (and reaches its
request: the avatar step succeeds, the identity is numeric), the one
UpdateTopic issued carries the name exactly when the name changed, the title
exactly when the title changed, the description exactly when the description
changed, and a field it carries has the value `d.Get` yields, the new one. -/
theorem update_payload_delta (c : Client) (d : TopicData) (topicID : Int)
    (hgate : (resourceGitlabTopicEnsureTitleSupport c d).1 = none)
    (hav : (updateAvatar c d).1.2 = none) (hid : Atoi d.id = (topicID, none)) :
    ∃ (options : UpdateTopicOptions) (rest : List Call),
      (resourceGitlabTopicUpdate c d).calls
        = Call.getVersion :: ((updateAvatar c d).2.2 ++ Call.updateTopic topicID options :: rest) ∧
      (rest = [] ∨ rest = [Call.getTopic topicID]) ∧
      (options.Name ≠ none ↔ d.state.name ≠ d.attrs.name) ∧
      (options.Title ≠ none ↔ d.state.title ≠ d.attrs.title) ∧
      (options.Description ≠ none ↔ d.state.description ≠ d.attrs.description) ∧
      (options.Name = none ∨ options.Name = some d.attrs.name) ∧
      (options.Title = none ∨ options.Title = some d.attrs.title) ∧
      (options.Description = none ∨ options.Description = some d.attrs.description) := by
  obtain ⟨rest, hrest, hcalls⟩ := resourceGitlabTopicUpdate_calls c d topicID hgate hav hid
  refine ⟨topicUpdateOptions d (updateAvatar c d).1.1, rest, hcalls, hrest, ?_⟩
  by_cases hn : d.state.name = d.attrs.name <;>
    by_cases ht : d.state.title = d.attrs.title <;>
    by_cases hd : d.state.description = d.attrs.description <;>
    cases (updateAvatar c d).1.1 <;>
    simp [topicUpdateOptions, HasChange, hn, ht, hd]

/-- Witness of C11: "topic-a" with a changed description alone, on a remote of
version 15.1: the payload carries the new description and nothing else. -/
theorem update_payload_delta_witness :
    ∃ (options : UpdateTopicOptions) (rest : List Call),
      (resourceGitlabTopicUpdate (topicRemote ⟨15, 1, 0⟩ remoteTopicA)
          topicDescriptionChanged).calls
        = Call.getVersion ::
            ((updateAvatar (topicRemote ⟨15, 1, 0⟩ remoteTopicA) topicDescriptionChanged).2.2 ++
              Call.updateTopic 42 options :: rest) ∧
      (rest = [] ∨ rest = [Call.getTopic 42]) ∧
      (options.Name ≠ none ↔
        topicDescriptionChanged.state.name ≠ topicDescriptionChanged.attrs.name) ∧
      (options.Title ≠ none ↔
        topicDescriptionChanged.state.title ≠ topicDescriptionChanged.attrs.title) ∧
      (options.Description ≠ none ↔
        topicDescriptionChanged.state.description
          ≠ topicDescriptionChanged.attrs.description) ∧
      (options.Name = none ∨ options.Name = some topicDescriptionChanged.attrs.name) ∧
      (options.Title = none ∨ options.Title = some topicDescriptionChanged.attrs.title) ∧
      (options.Description = none ∨
        options.Description = some topicDescriptionChanged.attrs.description) :=
  update_payload_delta (topicRemote ⟨15, 1, 0⟩ remoteTopicA) topicDescriptionChanged 42
    (by decide) (by decide) (by decide)

/-! ## The avatar of topic Update -/

/-- C12 (counterexample): the topic "topic-a" with a title, with no avatar and
no avatar hash, neither of them changed: `updateAvatar` hands back an avatar
that is not nil, the empty one, and the payload of the Update carries it. -/
theorem update_avatar_untriggered_counterexample :
    topicATitled.state.avatar = topicATitled.attrs.avatar ∧
    topicATitled.state.avatar_hash = topicATitled.attrs.avatar_hash ∧
    topicATitled.attrs.avatar = "" ∧ topicATitled.attrs.avatar_hash = "" ∧
    (updateAvatar (topicRemote ⟨15, 1, 0⟩ remoteTopicA) topicATitled).1
      = (some { Filename := "", Image := none }, none) ∧
    (resourceGitlabTopicUpdate (topicRemote ⟨15, 1, 0⟩ remoteTopicA) topicATitled).calls
      = [Call.getVersion,
          Call.updateTopic 42
            { Name := none, Title := none, Description := none,
              Avatar := some { Filename := "", Image := none } },
          Call.getTopic 42] := by
  decide

/-- C12 (amended): `updateAvatar` hands back an avatar that is not nil only if
avatar or avatar_hash changed or avatar_hash is empty, with or without an
avatar path. Under that condition and without a path it hands back the empty
avatar, which asks for the removal, and empties avatar_hash; with a path it
reads the file. When neither attribute changed and avatar_hash is not empty it
hands back nil without any request, and the payload of a topic Update that
reaches its request carries no avatar. Under the condition and without a path,
the payload of a topic Update that reaches its request carries the empty
avatar. -/
theorem update_avatar_trigger (c : Client) (d : TopicData) :
    ((updateAvatar c d).1.1 ≠ none →
      d.state.avatar ≠ d.attrs.avatar ∨ d.state.avatar_hash ≠ d.attrs.avatar_hash ∨
        d.attrs.avatar_hash = "") ∧
    ((d.state.avatar ≠ d.attrs.avatar ∨ d.state.avatar_hash ≠ d.attrs.avatar_hash ∨
        d.attrs.avatar_hash = "") →
      (d.attrs.avatar = "" →
        updateAvatar c d
          = ((some { Filename := "", Image := none }, none),
              { d with attrs := { d.attrs with avatar_hash := "" } }, [])) ∧
      (d.attrs.avatar ≠ "" →
        (updateAvatar c d).2.2 = [Call.openFile d.attrs.avatar] ∧
        (∀ avatarFile, c.openFile d.attrs.avatar = Except.ok avatarFile →
          (updateAvatar c d).1
            = (some { Filename := d.attrs.avatar, Image := some avatarFile }, none)))) ∧
    (d.state.avatar = d.attrs.avatar → d.state.avatar_hash = d.attrs.avatar_hash →
      d.attrs.avatar_hash ≠ "" →
        updateAvatar c d = ((none, none), d, []) ∧
        (∀ topicID, (resourceGitlabTopicEnsureTitleSupport c d).1 = none →
          Atoi d.id = (topicID, none) →
          ∃ (options : UpdateTopicOptions) (rest : List Call),
            (resourceGitlabTopicUpdate c d).calls
              = Call.getVersion :: Call.updateTopic topicID options :: rest ∧
            (rest = [] ∨ rest = [Call.getTopic topicID]) ∧ options.Avatar = none)) ∧
    ((d.state.avatar ≠ d.attrs.avatar ∨ d.state.avatar_hash ≠ d.attrs.avatar_hash ∨
        d.attrs.avatar_hash = "") → d.attrs.avatar = "" →
      ∀ topicID, (resourceGitlabTopicEnsureTitleSupport c d).1 = none →
        Atoi d.id = (topicID, none) →
        ∃ (options : UpdateTopicOptions) (rest : List Call),
          (resourceGitlabTopicUpdate c d).calls
            = Call.getVersion :: Call.updateTopic topicID options :: rest ∧
          (rest = [] ∨ rest = [Call.getTopic topicID]) ∧
          options.Avatar = some { Filename := "", Image := none }) := by
  have hempty : (d.state.avatar ≠ d.attrs.avatar ∨ d.state.avatar_hash ≠ d.attrs.avatar_hash ∨
      d.attrs.avatar_hash = "") → d.attrs.avatar = "" →
      updateAvatar c d
        = ((some { Filename := "", Image := none }, none),
            { d with attrs := { d.attrs with avatar_hash := "" } }, []) := by
    intro htrig hpath
    have hcond : (HasChange d.state.avatar d.attrs.avatar = true ∨
        HasChange d.state.avatar_hash d.attrs.avatar_hash = true) ∨ d.attrs.avatar_hash = "" := by
      simp only [HasChange, decide_eq_true_eq]
      tauto
    unfold updateAvatar
    rw [if_pos hcond]
    dsimp only
    rw [if_pos hpath]
  refine ⟨?_, ?_, ?_, ?_⟩
  rotate_right
  · intro htrig hpath topicID hgate hid
    have hU := hempty htrig hpath
    obtain ⟨rest, hrest, hcalls⟩ :=
      resourceGitlabTopicUpdate_calls c d topicID hgate (by rw [hU]) hid
    rw [hU] at hcalls
    refine ⟨topicUpdateOptions d (some { Filename := "", Image := none }), rest,
      by simpa using hcalls, hrest, ?_⟩
    simp only [topicUpdateOptions]
  · intro hne
    by_contra hcon
    simp only [not_or, not_not] at hcon
    obtain ⟨h1, h2, h3⟩ := hcon
    apply hne
    simp [updateAvatar, HasChange, h1, h2, h3]
  · intro htrig
    have hcond : (HasChange d.state.avatar d.attrs.avatar = true ∨
        HasChange d.state.avatar_hash d.attrs.avatar_hash = true) ∨ d.attrs.avatar_hash = "" := by
      simp only [HasChange, decide_eq_true_eq]
      tauto
    constructor
    · intro hpath
      unfold updateAvatar
      rw [if_pos hcond]
      dsimp only
      rw [if_pos hpath]
    · intro hpath
      unfold updateAvatar
      rw [if_pos hcond]
      dsimp only
      rw [if_neg hpath]
      unfold readLocalAvatar
      cases hopen : c.openFile d.attrs.avatar with
      | error cause => simp
      | ok avatarFile => simp
  · intro h1 h2 h3
    have hnil : updateAvatar c d = ((none, none), d, []) := by
      simp [updateAvatar, HasChange, h1, h2, h3]
    refine ⟨hnil, ?_⟩
    intro topicID hgate hid
    obtain ⟨rest, hrest, hcalls⟩ :=
      resourceGitlabTopicUpdate_calls c d topicID hgate (by rw [hnil]) hid
    rw [hnil] at hcalls
    refine ⟨topicUpdateOptions d none, rest, by simpa using hcalls, hrest, ?_⟩
    simp only [topicUpdateOptions]
    split_ifs <;> rfl

/-- Witness of C12 (amended): "topic-a" with the avatar "a.png" of hash "abc",
neither changed, on a remote of version 15.1: no avatar is handed back. -/
theorem update_avatar_trigger_witness :
    updateAvatar (topicRemote ⟨15, 1, 0⟩ remoteTopicA) topicDescriptionChanged
      = ((none, none), topicDescriptionChanged, []) :=
  ((update_avatar_trigger (topicRemote ⟨15, 1, 0⟩ remoteTopicA) topicDescriptionChanged).2.2.1
    (by decide) (by decide) (by decide)).1

/-! ## The inbound mapping of the Jira integration -/

/-- C13 (counterexample): the stored integration `jiraA`, whose url, username,
project_key and jira_issue_transition_id are set, read from a remote whose four
properties are empty: Read succeeds and the four attributes keep their prior
values, which are not the remote ones. -/
theorem jira_inbound_mapping_counterexample :
    resourceGitlabServiceJiraRead (jiraRemote blankJiraService) jiraA
      = Outcome.returned jiraAAfterBlankRead none
          [Call.getProject "grp/proj", Call.getJiraService "grp/proj"] ∧
    jiraAAfterBlankRead.attrs.url = "https://jira.example.com" ∧
    jiraAAfterBlankRead.attrs.url ≠ blankJiraProperties.URL ∧
    jiraAAfterBlankRead.attrs.username ≠ blankJiraProperties.Username ∧
    jiraAAfterBlankRead.attrs.project_key ≠ blankJiraProperties.ProjectKey ∧
    jiraAAfterBlankRead.attrs.jira_issue_transition_id
      ≠ blankJiraProperties.JiraIssueTransitionID := by
  decide

/-- C13 (amended): after a successful Read of the Jira integration, each of
url, username, project_key and jira_issue_transition_id is the remote property
when that one is not empty and the prior local value when it is empty; and
whatever way Read returns, it leaves the password as it was. -/
theorem jira_inbound_mapping (c : Client) (d : JiraData) :
    (∀ (jiraService : JiraService) (properties : JiraServiceProperties)
        (createdAt updatedAt : String),
      (c.getProject d.attrs.project).err = none →
      (c.getJiraService d.attrs.project).err = none →
      (c.getJiraService d.attrs.project).value = some jiraService →
      jiraService.Properties = some properties →
      jiraService.CreatedAt = some createdAt → jiraService.UpdatedAt = some updatedAt →
        ∃ d1 : JiraData,
          resourceGitlabServiceJiraRead c d
            = Outcome.returned d1 none
                [Call.getProject d.attrs.project, Call.getJiraService d.attrs.project] ∧
          d1.attrs.url = (if properties.URL ≠ "" then properties.URL else d.attrs.url) ∧
          d1.attrs.username
            = (if properties.Username ≠ "" then properties.Username else d.attrs.username) ∧
          d1.attrs.project_key
            = (if properties.ProjectKey ≠ "" then properties.ProjectKey
                else d.attrs.project_key) ∧
          d1.attrs.jira_issue_transition_id
            = (if properties.JiraIssueTransitionID ≠ "" then properties.JiraIssueTransitionID
                else d.attrs.jira_issue_transition_id)) ∧
    (∀ (d1 : JiraData) (diags : Diagnostics) (calls : List Call),
      resourceGitlabServiceJiraRead c d = Outcome.returned d1 diags calls →
        d1.attrs.password = d.attrs.password) := by
  constructor
  · intro jiraService properties createdAt updatedAt hp hj hv hprops hc hu
    simp only [resourceGitlabServiceJiraRead, hp, hj, hv, hprops, hc, hu]
    refine ⟨_, rfl, ?_⟩
    · by_cases h1 : properties.URL = "" <;> by_cases h2 : properties.Username = "" <;>
        by_cases h3 : properties.ProjectKey = "" <;>
        by_cases h4 : properties.JiraIssueTransitionID = "" <;>
        simp [h1, h2, h3, h4]
  · intro d1 diags calls h
    unfold resourceGitlabServiceJiraRead at h
    dsimp only at h
    split at h
    · split_ifs at h
      · split at h
        · simp at h
        · simp only [Outcome.returned.injEq] at h
          rw [← h.1]; rfl
      · simp only [Outcome.returned.injEq] at h
        rw [← h.1]
    · split at h
      · split_ifs at h
        · simp only [Outcome.returned.injEq] at h
          rw [← h.1]; rfl
        · simp only [Outcome.returned.injEq] at h
          rw [← h.1]
      · split at h
        · simp at h
        · split at h
          · simp at h
          · split at h
            · simp at h
            · split at h
              · simp at h
              · simp only [Outcome.returned.injEq] at h
                rw [← h.1]
                dsimp only
                split_ifs <;> rfl

/-- Witness of C13 (amended): `jiraA` read from the remote whose four
properties are empty keeps its url. -/
theorem jira_inbound_mapping_witness :
    ∃ d1 : JiraData,
      resourceGitlabServiceJiraRead (jiraRemote blankJiraService) jiraA
        = Outcome.returned d1 none
            [Call.getProject jiraA.attrs.project, Call.getJiraService jiraA.attrs.project] ∧
      d1.attrs.url
        = (if blankJiraProperties.URL ≠ "" then blankJiraProperties.URL else jiraA.attrs.url) ∧
      d1.attrs.username
        = (if blankJiraProperties.Username ≠ "" then blankJiraProperties.Username
            else jiraA.attrs.username) ∧
      d1.attrs.project_key
        = (if blankJiraProperties.ProjectKey ≠ "" then blankJiraProperties.ProjectKey
            else jiraA.attrs.project_key) ∧
      d1.attrs.jira_issue_transition_id
        = (if blankJiraProperties.JiraIssueTransitionID ≠ "" then
            blankJiraProperties.JiraIssueTransitionID
            else jiraA.attrs.jira_issue_transition_id) :=
  (jira_inbound_mapping (jiraRemote blankJiraService) jiraA).1 blankJiraService
    blankJiraProperties "2022-01-01 00:00:00 +0000 UTC" "2022-01-02 00:00:00 +0000 UTC"
    rfl rfl rfl rfl rfl rfl

end GitlabProvider
